import Mathlib

/-
  Shallow embedding of src/lib/pcap_reader.cpp (the capture-driven dispatch
  engine of the reass repository).

  External collaborators (libpcap, packet_t parsing, the reassemblers and the
  listener) are modelled at their interface boundary:
  * libpcap calls are abstracted by a `PcapEnv` record of outcomes;
  * a frame's parse (`packet_t::init`) is abstracted by a `ParseOutcome`,
    carrying the parsed layer stack or the raised error, together with the
    value of the `must_copy` flag when `init` returned or threw;
  * the side effects performed by `handle_packet` are recorded as a trace of
    `Action`s, in program order;
  * a reassembler is modelled by the listener it is bound to plus its buffered
    state (fresh construction yields an empty buffer).
-/

namespace Reass

/-- Layer kinds distinguished by the dispatch code (`layer_tcp`, `layer_udp`,
`layer_data`; everything else is only ever compared unequal). -/
inductive LayerType where
  | tcp
  | udp
  | data
  | other
deriving DecidableEq, Repr

/-- The part of `packet_t` that `handle_packet` inspects: the parsed layer
stack (outermost first, so `layer(-1)` is the last element) and the
timestamp's seconds used for `set_now`. -/
structure Packet where
  layers : List LayerType
  tsSec : Int
deriving DecidableEq, Repr

/-- Errors that `packet_t::init` can raise: `unknown_layer_t` (with its
`what()` text) or any other `std::exception`. -/
inductive ParseError where
  | unknownLayer (msg : String)
  | other (msg : String)
deriving DecidableEq, Repr

/-- Outcome of `packet->init(...)` for one frame: either a parsed packet or a
raised error, in both cases together with the value the by-pointer
`must_copy` flag holds when control returns to `handle_packet`. -/
inductive ParseOutcome where
  | ok (p : Packet) (mustCopy : Bool)
  | err (e : ParseError) (mustCopy : Bool)
deriving DecidableEq, Repr

/-- The `must_copy` value an outcome leaves behind. -/
def ParseOutcome.mustCopy : ParseOutcome → Bool
  | .ok _ mc => mc
  | .err _ mc => mc

/-- A `tcp_reassembler_t` / `udp_reassembler_t` at its interface boundary:
the listener it was constructed with (or rebound to) and its buffered
state.  The constructor builds it with an empty buffer. -/
structure Reassembler where
  d_listener : Nat
  buffered : List Packet
deriving DecidableEq, Repr

/-- The `pcap_reader_t` state relevant to the modelled operations.  Listeners
and pcap handles are abstract identities (`Nat`). -/
structure PcapReader where
  d_pcap : Option Nat
  d_listener : Nat
  d_linktype : Int
  d_tcp_reassembler : Option Reassembler
  d_udp_reassembler : Option Reassembler
deriving DecidableEq, Repr

/-- `pcap_reader_t::enable_tcp_reassembly` (lines 141-150). -/
def enable_tcp_reassembly (en : Bool) (st : PcapReader) : PcapReader :=
  if en && st.d_tcp_reassembler.isNone then
    { st with d_tcp_reassembler := some { d_listener := st.d_listener, buffered := [] } }
  else if !en && st.d_tcp_reassembler.isSome then
    { st with d_tcp_reassembler := none }
  else st

/-- `pcap_reader_t::enable_udp_reassembly` (lines 152-161). -/
def enable_udp_reassembly (en : Bool) (st : PcapReader) : PcapReader :=
  if en && st.d_udp_reassembler.isNone then
    { st with d_udp_reassembler := some { d_listener := st.d_listener, buffered := [] } }
  else if !en && st.d_udp_reassembler.isSome then
    { st with d_udp_reassembler := none }
  else st

/-- `pcap_reader_t::pcap_reader_t(listener)` (lines 24-34): members start as
null, then both reassemblers are enabled.  (`d_linktype` is not set by the
constructor; its initial value is irrelevant to the modelled claims.) -/
def pcap_reader_init (listener : Nat) : PcapReader :=
  let st : PcapReader :=
    { d_pcap := none, d_listener := listener, d_linktype := 0,
      d_tcp_reassembler := none, d_udp_reassembler := none }
  enable_udp_reassembly true (enable_tcp_reassembly true st)

/-- Build-time configuration: whether `UNKNOWN_LAYER_AS_ERROR` is defined
(line 200). -/
structure BuildConfig where
  unknown_layer_as_error : Bool
deriving DecidableEq, Repr

/-- The observable steps `handle_packet` performs, in program order. -/
inductive Action where
  | claim
  | set_now_tcp (t : Int)
  | set_now_udp (t : Int)
  | process_tcp
  | process_udp
  | accept
  | accept_error (msg : String)
  | release
  | copy_data
deriving DecidableEq, Repr

/-- The `set_now` calls on whichever reassemblers exist (lines 177-180). -/
def advance_reassembler_clocks (st : PcapReader) (p : Packet) : List Action :=
  (if st.d_tcp_reassembler.isSome then [Action.set_now_tcp p.tsSec] else []) ++
  (if st.d_udp_reassembler.isSome then [Action.set_now_udp p.tsSec] else [])

/-- The routing decision of lines 182-196: `top = packet->layer(-1)`,
`second = packet->layer(-2)`; fewer than two layers is accepted directly,
then TCP (top tcp, or data over tcp) if that reassembler exists, then UDP
likewise, else direct accept. -/
def classify (st : PcapReader) (p : Packet) : Action :=
  match p.layers.getLast?, p.layers.dropLast.getLast? with
  | some top, some second =>
    if st.d_tcp_reassembler.isSome &&
        (top == LayerType.tcp || (top == LayerType.data && second == LayerType.tcp)) then
      Action.process_tcp
    else if st.d_udp_reassembler.isSome &&
        (top == LayerType.udp || (top == LayerType.data && second == LayerType.udp)) then
      Action.process_udp
    else
      Action.accept
  | _, _ => Action.accept

/-- `pcap_reader_t::handle_packet` (lines 164-212) for one frame, given the
outcome of the parse.  The result type allows an error to propagate out of
the callback; the function is shown never to use that possibility, because
the two catch clauses convert every parse error into a release or an
`accept_error` delivery.  The final `if (must_copy) packet->copy_data()`
(lines 210-211) runs after the try/catch on every path. -/
def handle_packet (cfg : BuildConfig) (st : PcapReader) (o : ParseOutcome) :
    Except ParseError (List Action) :=
  match o with
  | .ok p mc =>
      Except.ok ([Action.claim] ++ advance_reassembler_clocks st p ++
        [classify st p] ++ (if mc then [Action.copy_data] else []))
  | .err e mc =>
      let handled : List Action :=
        match e with
        | .unknownLayer msg =>
            if cfg.unknown_layer_as_error then [Action.accept_error msg]
            else [Action.release]
        | .other msg => [Action.accept_error msg]
      Except.ok ([Action.claim] ++ handled ++ (if mc then [Action.copy_data] else []))

/-- Outcomes of the libpcap calls made by the session-management code:
`none` / `false` means the call fails. -/
structure PcapEnv where
  open_offline : String → Option Nat
  open_live : String → Bool → Option Nat
  compile_ok : String → Bool
  setfilter_ok : String → Bool
  datalink : Nat → Int
  dispatch_ok : Bool

/-- The exceptions thrown by the session-management code, by site. -/
inductive ReadError where
  | alreadyOpen
  | openError (msg : String)
  | filterError (msg : String)
  | readError (msg : String)
deriving DecidableEq, Repr

/-- A thrown exception carries the reader state at the throw site, so that
scope-exit cleanup can be applied to it. -/
abbrev SessionResult := Except (ReadError × PcapReader) PcapReader

/-- `pcap_reader_t::set_bpf` (lines 104-114): empty filter is a no-op;
compile or attach failure throws. -/
def set_bpf (env : PcapEnv) (st : PcapReader) (bpf : String) : SessionResult :=
  if bpf = "" then Except.ok st
  else if !env.compile_ok bpf then Except.error (ReadError.filterError bpf, st)
  else if !env.setfilter_ok bpf then Except.error (ReadError.filterError bpf, st)
  else Except.ok st

/-- `pcap_reader_t::open_file` (lines 64-79): busy check, `pcap_open_offline`,
filter, `pcap_datalink` into `d_linktype` (the `begin_capture` notification
to the listener is an external side effect, not modelled). -/
def open_file (env : PcapEnv) (st : PcapReader) (fname bpf : String) : SessionResult :=
  if st.d_pcap.isSome then Except.error (ReadError.alreadyOpen, st)
  else
    match env.open_offline fname with
    | none => Except.error (ReadError.openError fname, st)
    | some h =>
      let st1 := { st with d_pcap := some h }
      match set_bpf env st1 bpf with
      | Except.error e => Except.error e
      | Except.ok st2 => Except.ok { st2 with d_linktype := env.datalink h }

/-- `pcap_reader_t::read_packets` (lines 221-235): `pcap_dispatch`, throwing
on a -1 result. -/
def read_packets (env : PcapEnv) (st : PcapReader) : SessionResult :=
  if env.dispatch_ok then Except.ok st
  else Except.error (ReadError.readError "dispatch", st)

/-- `pcap_close_guard_t::~pcap_close_guard_t` (line 18): close and null the
handle if it is set, applied on every scope exit. -/
def pcap_close_guard (st : PcapReader) : PcapReader :=
  if st.d_pcap.isSome then { st with d_pcap := none } else st

/-- `pcap_reader_t::read_file` (lines 53-62): the busy check throws before
the guard is constructed (so that path leaves the state untouched); after
it, the guard's destructor runs on both the normal and the exceptional
exit of `open_file`/`read_packets`. -/
def read_file (env : PcapEnv) (st : PcapReader) (fname bpf : String) : SessionResult :=
  if st.d_pcap.isSome then Except.error (ReadError.alreadyOpen, st)
  else
    match (match open_file env st fname bpf with
           | Except.ok st1 => read_packets env st1
           | Except.error e => Except.error e) with
    | Except.ok st2 => Except.ok (pcap_close_guard st2)
    | Except.error (e, st2) => Except.error (e, pcap_close_guard st2)

/-- `pcap_reader_t::open_live_capture` (lines 90-102): note there is no
busy check here; `pcap_open_live`, filter, `pcap_datalink`. -/
def open_live_capture (env : PcapEnv) (st : PcapReader) (device : String)
    (promiscuous : Bool) (bpf : String) : SessionResult :=
  match env.open_live device promiscuous with
  | none => Except.error (ReadError.openError device, st)
  | some h =>
    let st1 := { st with d_pcap := some h }
    match set_bpf env st1 bpf with
    | Except.error e => Except.error e
    | Except.ok st2 => Except.ok { st2 with d_linktype := env.datalink h }

/-- The reader state on which an invocation ends, whether it returned or
threw. -/
def session_final : SessionResult → PcapReader
  | Except.ok st => st
  | Except.error (_, st) => st

/-- A concrete environment in which every libpcap call succeeds, used by
witnesses. -/
def envAllOk : PcapEnv :=
  { open_offline := fun _ => some 1
    open_live := fun _ _ => some 2
    compile_ok := fun _ => true
    setfilter_ok := fun _ => true
    datalink := fun _ => 1
    dispatch_ok := true }

/-- Whatever state the guard is applied to, the handle ends closed. -/
theorem pcap_close_guard_closes (st : PcapReader) : (pcap_close_guard st).d_pcap = none := by
  unfold pcap_close_guard
  cases h : st.d_pcap with
  | none => simp [h]
  | some v => simp [h]

/-- C9: immediately after `pcap_reader_t`'s constructor runs, both the TCP
and the UDP reassembler exist, each freshly constructed and bound to the
listener passed to the constructor; no `enable` call by the client is
needed. -/
theorem reassembly_enabled_after_construction :
    ∀ listener : Nat,
      (pcap_reader_init listener).d_tcp_reassembler =
        some { d_listener := listener, buffered := [] } ∧
      (pcap_reader_init listener).d_udp_reassembler =
        some { d_listener := listener, buffered := [] } := by
  intro listener
  exact ⟨rfl, rfl⟩

/-- C8: `enable_tcp_reassembly` and `enable_udp_reassembly` are idempotent;
disabling removes the reassembler; disabling and re-enabling yields a
fresh reassembler (empty buffered state) bound to the current listener. -/
theorem reassembly_toggle_idempotent_and_fresh :
    ∀ (st : PcapReader) (e : Bool),
      enable_tcp_reassembly e (enable_tcp_reassembly e st) = enable_tcp_reassembly e st ∧
      enable_udp_reassembly e (enable_udp_reassembly e st) = enable_udp_reassembly e st ∧
      (enable_tcp_reassembly false st).d_tcp_reassembler = none ∧
      (enable_udp_reassembly false st).d_udp_reassembler = none ∧
      (enable_tcp_reassembly true (enable_tcp_reassembly false st)).d_tcp_reassembler =
        some { d_listener := st.d_listener, buffered := [] } ∧
      (enable_udp_reassembly true (enable_udp_reassembly false st)).d_udp_reassembler =
        some { d_listener := st.d_listener, buffered := [] } := by
  intro st e
  cases e with
  | false =>
    cases htcp : st.d_tcp_reassembler <;> cases hudp : st.d_udp_reassembler <;>
      simp [enable_tcp_reassembly, enable_udp_reassembly, htcp, hudp]
  | true =>
    cases htcp : st.d_tcp_reassembler <;> cases hudp : st.d_udp_reassembler <;>
      simp [enable_tcp_reassembly, enable_udp_reassembly, htcp, hudp]

/-- C10: with `UNKNOWN_LAYER_AS_ERROR` not defined, when parsing raises the
unrecognized-layer condition and `must_copy` is still true, `handle_packet`
first releases the packet back to the pool and then still calls
`copy_data` on that same released packet before returning. -/
theorem unknown_layer_release_then_copy :
    ∀ (st : PcapReader) (msg : String),
      handle_packet { unknown_layer_as_error := false } st
        (ParseOutcome.err (ParseError.unknownLayer msg) true) =
      Except.ok [Action.claim, Action.release, Action.copy_data] := by
  intro st msg
  rfl

/-- C4: calling `read_file` while a capture handle is already open throws
the already-busy exception before opening anything and leaves the reader
state (including the open handle) untouched. -/
theorem read_file_already_open (env : PcapEnv) (st : PcapReader) (fname bpf : String)
    (h : st.d_pcap.isSome = true) :
    read_file env st fname bpf = Except.error (ReadError.alreadyOpen, st) := by
  unfold read_file
  simp [h]

/-- Witness for `read_file_already_open` at a concrete open state. -/
theorem read_file_already_open_w :
    ({ pcap_reader_init 0 with d_pcap := some 3 } : PcapReader).d_pcap.isSome = true ∧
    read_file envAllOk { pcap_reader_init 0 with d_pcap := some 3 } "a.pcap" "" =
      Except.error (ReadError.alreadyOpen, { pcap_reader_init 0 with d_pcap := some 3 }) :=
  ⟨rfl, read_file_already_open envAllOk _ "a.pcap" "" rfl⟩

/-- C7: every invocation of `read_file` that passes the busy check ends with
the handle closed and nulled, on the normal exit and on every exceptional
exit (open failure, filter failure, read-loop failure), because the scope
guard runs unconditionally. -/
theorem read_file_closes_handle_on_every_exit (env : PcapEnv) (st : PcapReader)
    (fname bpf : String) (h : st.d_pcap = none) :
    (session_final (read_file env st fname bpf)).d_pcap = none := by
  unfold read_file
  simp [h]
  cases hof : open_file env st fname bpf with
  | ok st1 =>
    cases hrp : read_packets env st1 with
    | ok st2 => simp [hof, hrp, session_final, pcap_close_guard_closes]
    | error e =>
      obtain ⟨er, st2⟩ := e
      simp [hof, hrp, session_final, pcap_close_guard_closes]
  | error e =>
    obtain ⟨er, st2⟩ := e
    simp [hof, session_final, pcap_close_guard_closes]

/-- Witness for `read_file_closes_handle_on_every_exit` on a fresh reader. -/
theorem read_file_closes_handle_on_every_exit_w :
    (pcap_reader_init 0).d_pcap = none ∧
    (session_final (read_file envAllOk (pcap_reader_init 0) "a.pcap" "")).d_pcap = none :=
  ⟨rfl, read_file_closes_handle_on_every_exit envAllOk (pcap_reader_init 0) "a.pcap" "" rfl⟩

/-- The last element of a cons around an append that ends in a singleton. -/
theorem getLast?_cons_append_singleton {α : Type} (x b : α) (l : List α) :
    (x :: (l ++ [b])).getLast? = some b := by
  rw [← List.cons_append, List.getLast?_append_cons]
  rfl

/-- C1: whatever branch routing takes (direct accept, TCP/UDP hand-off,
error delivery, or pool release), if the `must_copy` flag is still set when
routing is done, the last thing `handle_packet` does before returning is
`copy_data`, so no packet leaves the callback still borrowed. -/
theorem handle_packet_copies_borrowed_before_return (cfg : BuildConfig)
    (st : PcapReader) (o : ParseOutcome) (h : o.mustCopy = true) :
    ∃ acts, handle_packet cfg st o = Except.ok acts ∧
      acts.getLast? = some Action.copy_data := by
  cases o with
  | ok p mc =>
    simp [ParseOutcome.mustCopy] at h
    subst h
    refine ⟨_, rfl, ?_⟩
    simp only [List.cons_append, List.nil_append, List.append_assoc, if_pos]
    rw [show advance_reassembler_clocks st p ++ [classify st p, Action.copy_data] =
          (advance_reassembler_clocks st p ++ [classify st p]) ++ [Action.copy_data] by simp]
    exact getLast?_cons_append_singleton _ _ _
  | err e mc =>
    simp [ParseOutcome.mustCopy] at h
    subst h
    refine ⟨_, rfl, ?_⟩
    simp only [List.cons_append, List.nil_append, List.append_assoc, if_pos]
    exact getLast?_cons_append_singleton _ _ _

/-- Witness for `handle_packet_copies_borrowed_before_return`: a still-borrowed
frame that routes to the TCP reassembler on a default-constructed reader. -/
theorem handle_packet_copies_borrowed_before_return_w :
    (ParseOutcome.ok { layers := [LayerType.other, LayerType.tcp], tsSec := 0 } true).mustCopy
      = true ∧
    ∃ acts, handle_packet { unknown_layer_as_error := false } (pcap_reader_init 0)
        (ParseOutcome.ok { layers := [LayerType.other, LayerType.tcp], tsSec := 0 } true) =
      Except.ok acts ∧ acts.getLast? = some Action.copy_data :=
  ⟨rfl, handle_packet_copies_borrowed_before_return _ _ _ rfl⟩

/-- C3: `handle_packet` never lets a parse or classification error escape:
on every outcome it returns normally, and on every error outcome the
trace contains either a pool release or an `accept_error` delivery. -/
theorem handle_packet_never_propagates (cfg : BuildConfig) (st : PcapReader) :
    (∀ o, ∃ acts, handle_packet cfg st o = Except.ok acts) ∧
    (∀ e mc, ∃ acts, handle_packet cfg st (ParseOutcome.err e mc) = Except.ok acts ∧
      (Action.release ∈ acts ∨ ∃ msg, Action.accept_error msg ∈ acts)) := by
  constructor
  · intro o
    cases o with
    | ok p mc => exact ⟨_, rfl⟩
    | err e mc => exact ⟨_, rfl⟩
  · intro e mc
    refine ⟨_, rfl, ?_⟩
    cases e with
    | unknownLayer msg =>
      cases hu : cfg.unknown_layer_as_error with
      | false => left; simp [hu]
      | true => right; exact ⟨msg, by simp [hu]⟩
    | other msg => right; exact ⟨msg, by simp⟩

/-- C2 counterexample: on a freshly constructed reader (TCP reassembly
enabled), a frame parsed to the single layer TCP has a TCP top layer, yet
`handle_packet` delivers it through the consumer's `accept` and never calls
the TCP reassembler's `process`: lines 185-186 require a second layer to
exist before the TCP test is reached. -/
theorem tcp_top_without_second_layer_not_reassembled :
    (pcap_reader_init 0).d_tcp_reassembler.isSome = true ∧
    ({ layers := [LayerType.tcp], tsSec := 0 } : Packet).layers.getLast? =
      some LayerType.tcp ∧
    handle_packet { unknown_layer_as_error := false } (pcap_reader_init 0)
        (ParseOutcome.ok { layers := [LayerType.tcp], tsSec := 0 } false) =
      Except.ok [Action.claim, Action.set_now_tcp 0, Action.set_now_udp 0, Action.accept] ∧
    Action.process_tcp ∉
      [Action.claim, Action.set_now_tcp 0, Action.set_now_udp 0, Action.accept] := by
  refine ⟨rfl, rfl, rfl, by decide⟩

/-- C2 (amended): for a parsed frame with at least two layers whose top
layer is TCP, or is a data layer directly above a TCP layer, while the TCP
reassembler exists, `handle_packet` records exactly one `process` call to
the TCP reassembler and no direct `accept` or `accept_error` delivery. -/
theorem tcp_frame_to_tcp_reassembler (cfg : BuildConfig) (st : PcapReader)
    (p : Packet) (mc : Bool) (top second : LayerType)
    (htcp : st.d_tcp_reassembler.isSome = true)
    (h1 : p.layers.getLast? = some top)
    (h2 : p.layers.dropLast.getLast? = some second)
    (h3 : top = LayerType.tcp ∨ (top = LayerType.data ∧ second = LayerType.tcp)) :
    ∃ acts, handle_packet cfg st (ParseOutcome.ok p mc) = Except.ok acts ∧
      acts.count Action.process_tcp = 1 ∧
      Action.accept ∉ acts ∧ (∀ msg, Action.accept_error msg ∉ acts) := by
  have hc : classify st p = Action.process_tcp := by
    unfold classify
    rw [h1, h2]
    have hb : (top == LayerType.tcp ||
        (top == LayerType.data && second == LayerType.tcp)) = true := by
      rcases h3 with h | ⟨ha, hb⟩
      · subst h; rfl
      · subst ha; subst hb; rfl
    simp [htcp, hb]
  refine ⟨_, rfl, ?_, ?_, ?_⟩
  · rw [hc]
    unfold advance_reassembler_clocks
    rw [htcp]
    cases hudp : st.d_udp_reassembler.isSome <;> cases mc <;>
      simp [List.count_append, List.count_cons]
  · rw [hc]
    unfold advance_reassembler_clocks
    rw [htcp]
    cases hudp : st.d_udp_reassembler.isSome <;> cases mc <;> simp
  · intro msg
    rw [hc]
    unfold advance_reassembler_clocks
    rw [htcp]
    cases hudp : st.d_udp_reassembler.isSome <;> cases mc <;> simp

/-- Witness for `tcp_frame_to_tcp_reassembler`: a two-layer payload frame
over TCP on a freshly constructed reader. -/
theorem tcp_frame_to_tcp_reassembler_w :
    (pcap_reader_init 0).d_tcp_reassembler.isSome = true ∧
    (∃ acts, handle_packet { unknown_layer_as_error := false } (pcap_reader_init 0)
        (ParseOutcome.ok { layers := [LayerType.other, LayerType.tcp], tsSec := 5 } true) =
      Except.ok acts ∧
      acts.count Action.process_tcp = 1 ∧
      Action.accept ∉ acts ∧ (∀ msg, Action.accept_error msg ∉ acts)) :=
  ⟨rfl, tcp_frame_to_tcp_reassembler _ _ _ true LayerType.tcp LayerType.other
    rfl rfl rfl (Or.inl rfl)⟩

/-- C5: `open_live_capture`, unlike `read_file`/`open_file`, performs no
busy check.  Invoked while handle 3 is already open it does not throw
already-open: it opens a new live handle (2) and overwrites `d_pcap`,
losing the previously open handle. -/
theorem open_live_capture_ignores_open_handle :
    open_live_capture envAllOk { pcap_reader_init 0 with d_pcap := some 3 }
        "eth0" true "" =
      Except.ok { pcap_reader_init 0 with d_pcap := some 2, d_linktype := 1 } := by
  rfl

/-- C6 counterexample: `read_file` twice in a row on the same engine with no
intervening close: the first call succeeds and, because the close guard has
already closed the handle when it returns, the second call succeeds as well
instead of failing with already-open. -/
theorem read_file_twice_second_call_succeeds :
    read_file envAllOk (pcap_reader_init 0) "a.pcap" "" =
      Except.ok { pcap_reader_init 0 with d_linktype := 1 } ∧
    read_file envAllOk { pcap_reader_init 0 with d_linktype := 1 } "a.pcap" "" =
      Except.ok { pcap_reader_init 0 with d_linktype := 1 } :=
  ⟨rfl, rfl⟩

/-- `open_file` started with no open handle never throws already-open. -/
theorem open_file_no_already_open (env : PcapEnv) (st : PcapReader)
    (fname bpf : String) (h : st.d_pcap = none) (st' : PcapReader) :
    open_file env st fname bpf ≠ Except.error (ReadError.alreadyOpen, st') := by
  unfold open_file
  simp [h]
  cases ho : env.open_offline fname with
  | none => simp
  | some hdl =>
    unfold set_bpf
    by_cases hb : bpf = ""
    · simp [hb]
    · by_cases hcmp : env.compile_ok bpf
      · by_cases hset : env.setfilter_ok bpf
        · simp [hb, hcmp, hset]
        · simp [hb, hcmp, hset]
      · simp [hb, hcmp]

/-- C6 (amended): after a `read_file` call returns normally, the handle is
already closed, so a second sequential `read_file` on the same engine never
fails with already-open; the already-open failure can only be observed when
`read_file` is entered while a handle is still open. -/
theorem read_file_sequential_second_call_not_already_open (env : PcapEnv)
    (st st1 : PcapReader) (fname bpf : String)
    (h : read_file env st fname bpf = Except.ok st1) :
    st1.d_pcap = none ∧
    ∀ st', read_file env st1 fname bpf ≠ Except.error (ReadError.alreadyOpen, st') := by
  have hd : st1.d_pcap = none := by
    unfold read_file at h
    by_cases hopen : st.d_pcap.isSome
    · simp [hopen] at h
    · simp [hopen] at h
      cases hof : open_file env st fname bpf with
      | ok st2 =>
        simp only [hof] at h
        cases hrp : read_packets env st2 with
        | ok st3 =>
          simp only [hrp, Except.ok.injEq] at h
          rw [← h]
          exact pcap_close_guard_closes st3
        | error e =>
          obtain ⟨er, st3⟩ := e
          simp only [hrp] at h
          exact Except.noConfusion h
      | error e =>
        obtain ⟨er, st2⟩ := e
        simp only [hof] at h
        exact Except.noConfusion h
  refine ⟨hd, ?_⟩
  intro st' hcontra
  unfold read_file at hcontra
  rw [show st1.d_pcap.isSome = false by simp [hd]] at hcontra
  simp at hcontra
  cases hof : open_file env st1 fname bpf with
  | ok st2 =>
    simp only [hof] at hcontra
    cases hrp : read_packets env st2 with
    | ok st3 =>
      simp only [hrp] at hcontra
      exact Except.noConfusion hcontra
    | error e =>
      obtain ⟨er, st3⟩ := e
      have her : er = ReadError.readError "dispatch" := by
        unfold read_packets at hrp
        by_cases hdp : env.dispatch_ok
        · simp [hdp] at hrp
        · simp [hdp] at hrp
          exact hrp.1.symm
      simp only [hrp, Except.error.injEq, Prod.mk.injEq] at hcontra
      rw [her] at hcontra
      exact ReadError.noConfusion hcontra.1
  | error e =>
    obtain ⟨er, st2⟩ := e
    simp only [hof, Except.error.injEq, Prod.mk.injEq] at hcontra
    obtain ⟨her, -⟩ := hcontra
    rw [her] at hof
    exact open_file_no_already_open env st1 fname bpf hd st2 hof

/-- Witness for `read_file_sequential_second_call_not_already_open` with the
all-succeeding environment on a fresh reader. -/
theorem read_file_sequential_second_call_not_already_open_w :
    read_file envAllOk (pcap_reader_init 0) "a.pcap" "" =
      Except.ok { pcap_reader_init 0 with d_linktype := 1 } ∧
    ({ pcap_reader_init 0 with d_linktype := 1 } : PcapReader).d_pcap = none ∧
    ∀ st', read_file envAllOk { pcap_reader_init 0 with d_linktype := 1 } "a.pcap" "" ≠
      Except.error (ReadError.alreadyOpen, st') :=
  ⟨rfl, read_file_sequential_second_call_not_already_open envAllOk
    (pcap_reader_init 0) _ "a.pcap" "" rfl⟩

end Reass
